import Mathlib

/-!
Shallow embedding of the SLE Return Channel Frames (RCF) user-side interface
(`bliss/sle/rcf.py`): outbound operation builders (`start`,
`schedule_status_report`), the CCSDS time packing used by `start`, the inbound
PDU dispatch table (`_handle_pdu` and the handler registrations made in
`__init__`), the transfer-buffer redispatch (`_data_transfer_handler`), the
frame forwarder (`_transfer_data_invoc_handler`) and the sync-notification
interpreter (`_sync_notify_handler`).

Python optional integer arguments are modelled as `Option Nat`; Python
truthiness on such a value (`not x`) is false exactly when the value is a
present non-zero integer, which `pyTruthy` captures.  Fallible paths
(`raise`, `struct.error`) are modelled with `Except`/`Option`.  Externally
observable side effects (log calls, UDP datagrams) are returned as explicit
`Effects` values.
-/

namespace RcfSpec

/-- Truthiness of a Python optional integer: `not x` is true when `x` is
`None` or `0`. -/
def pyTruthy : Option Nat → Bool
  | none => false
  | some n => !(n == 0)

/-- Log levels of `bliss.core.log` calls appearing in the module. -/
inductive LogLevel
  | info
  | warning
  | error
deriving DecidableEq, Repr

/-- One emitted log call: its level and message. -/
structure LogEntry where
  level : LogLevel
  msg : String
deriving DecidableEq, Repr

/-- One UDP datagram sent via `self._telem_sock.sendto(payload, (host, port))`. -/
structure Datagram where
  payload : List Nat
  host : String
  port : Nat
deriving DecidableEq, Repr

/-- Externally observable effects of an inbound-PDU handler. -/
structure Effects where
  logs : List LogEntry
  datagrams : List Datagram
deriving DecidableEq, Repr

/-- Credentials choice placed in an outbound PDU: `used` carries the value of
`self.make_credentials()`, `unused` is the explicit unused marker. -/
inductive Credentials
  | used (cred : Nat)
  | unused
deriving DecidableEq, Repr

/-- Session state read by the RCF operation builders: `_auth_level`,
the value `make_credentials()` would produce, `invoke_id`, and the session
defaults `_scid` / `_tfvn` captured in `__init__`. -/
structure Session where
  authLevel : String
  credential : Nat
  invokeId : Nat
  scid : Option Nat
  tfvn : Option Nat
deriving DecidableEq, Repr

/-- Credential Selector: the `if self._auth_level == "all"` branch choosing a
used versus unused credential, shared by `start` and `schedule_status_report`. -/
def credentialSelect (s : Session) : Credentials :=
  if s.authLevel == "all" then Credentials.used s.credential else Credentials.unused

/-- The `vcId` CHOICE of a `GvcId`: master channel marker or a virtual
channel index. -/
inductive VcIdChoice
  | masterChannel
  | virtualChannel (idx : Nat)
deriving DecidableEq, Repr

/-- The `GvcId` value built by `RCF.start`. -/
structure GvcId where
  spacecraftId : Nat
  versionNumber : Nat
  vcId : VcIdChoice
deriving DecidableEq, Repr

/-- `struct.pack` with format `!H` on `n`: two big-endian bytes; `struct.error` (modelled as
`none`) when the value does not fit 16 bits. -/
def packU16 (n : Nat) : Option (List Nat) :=
  if n < 2 ^ 16 then some [n / 2 ^ 8, n % 2 ^ 8] else none

/-- `struct.pack` with format `!I` on `n`: four big-endian bytes; `none` when the value does
not fit 32 bits. -/
def packU32 (n : Nat) : Option (List Nat) :=
  if n < 2 ^ 32 then
    some [n / 2 ^ 24, n / 2 ^ 16 % 2 ^ 8, n / 2 ^ 8 % 2 ^ 8, n % 2 ^ 8]
  else none

/-- `struct.pack` with format `!HIH` on `(a, b, c)`: the concatenation of the three packed
fields, failing if any field fails. -/
def structPackHIH (a b c : Nat) : Option (List Nat) :=
  match packU16 a, packU32 b, packU16 c with
  | some x, some y, some z => some (x ++ y ++ z)
  | _, _, _ => none

/-- `struct.pack` with format `!HIH` applied to `((t - common.CCSDS_EPOCH).days, 0, 0)` for a
timestamp `days` whole days after the CCSDS epoch. -/
def ccsdsTimeFormat (days : Nat) : Option (List Nat) :=
  structPackHIH days 0 0

/-- The populated `rcfStartInvocation` fields. -/
structure StartInvocation where
  invokerCredentials : Credentials
  invokeId : Nat
  startTime : List Nat
  stopTime : List Nat
  requestedGvcId : GvcId
deriving DecidableEq, Repr

/-- The exceptions `RCF.start` can raise: the three `AttributeError`
validation failures, and `struct.error` from time packing. -/
inductive StartError
  | noChannelSelection
  | missingSpacecraftId
  | missingFrameVersion
  | structError
deriving DecidableEq, Repr

/-- The reassignment pattern `x = x if x else default` applied by `start` to
the spacecraft id and the transfer frame version number. -/
def resolveDefault (arg dflt : Option Nat) : Option Nat :=
  if pyTruthy arg then arg else dflt

/-- `RCF.start(start_time, end_time, spacecraft_id, trans_frame_ver_num,
master_channel, virtual_channel)`.  Timestamps are represented by their whole
day counts after the CCSDS epoch (the code only populates day resolution).
An `Except.error` value means the corresponding exception is raised before
any PDU is transmitted; `Except.ok` is the PDU handed to
`self.send(self.encode_pdu(...))`. -/
def start (s : Session) (startDays endDays : Nat)
    (spacecraft_id trans_frame_ver_num : Option Nat)
    (master_channel : Bool) (virtual_channel : Option Nat) :
    Except StartError StartInvocation :=
  if !master_channel && !pyTruthy virtual_channel then
    Except.error StartError.noChannelSelection
  else if !pyTruthy (resolveDefault spacecraft_id s.scid) then
    Except.error StartError.missingSpacecraftId
  else if !pyTruthy (resolveDefault trans_frame_ver_num s.tfvn) then
    Except.error StartError.missingFrameVersion
  else
    match ccsdsTimeFormat startDays, ccsdsTimeFormat endDays with
    | some st, some et =>
        Except.ok
          { invokerCredentials := credentialSelect s
            invokeId := s.invokeId
            startTime := st
            stopTime := et
            requestedGvcId :=
              { spacecraftId := (resolveDefault spacecraft_id s.scid).getD 0
                versionNumber := (resolveDefault trans_frame_ver_num s.tfvn).getD 0
                vcId :=
                  if master_channel then VcIdChoice.masterChannel
                  else VcIdChoice.virtualChannel (virtual_channel.getD 0) } }
    | _, _ => Except.error StartError.structError

/-- The `reportType` CHOICE as populated by `schedule_status_report`: the
`periodically` alternative stores whatever `cycle` value the caller passed,
unvalidated. -/
inductive ReportTypeField
  | immediately
  | periodically (cycle : Option Nat)
  | stop
deriving DecidableEq, Repr

/-- The populated `rcfScheduleStatusReportInvocation` fields. -/
structure ScheduleInvocation where
  invokerCredentials : Credentials
  invokeId : Nat
  reportType : ReportTypeField
deriving DecidableEq, Repr

/-- The exception `schedule_status_report` can raise. -/
inductive ScheduleError
  | unknownReportType (reportType : String)
deriving DecidableEq, Repr

/-- `RCF.schedule_status_report(report_type, cycle)`.  `Except.ok` is the PDU
handed to `self.send(self.encode_pdu(pdu))`; `Except.error` is the
`ValueError` raised for an unknown report type. -/
def schedule_status_report (s : Session) (report_type : String)
    (cycle : Option Nat) : Except ScheduleError ScheduleInvocation :=
  let creds := credentialSelect s
  if report_type == "immediately" then
    Except.ok { invokerCredentials := creds, invokeId := s.invokeId,
                reportType := ReportTypeField.immediately }
  else if report_type == "periodically" then
    Except.ok { invokerCredentials := creds, invokeId := s.invokeId,
                reportType := ReportTypeField.periodically cycle }
  else if report_type == "stop" then
    Except.ok { invokerCredentials := creds, invokeId := s.invokeId,
                reportType := ReportTypeField.stop }
  else
    Except.error (ScheduleError.unknownReportType report_type)

/-- `pdu_key[:1].upper() + pdu_key[1:]`: only the first character is
upper-cased. -/
def upFirst (s : String) : String :=
  match s.toList with
  | [] => ""
  | c :: rest => String.mk (c.toUpper :: rest)

/-- The identities of the bound-method handlers registered in
`RCF.__init__`. -/
inductive HandlerId
  | bindReturn
  | unbindReturn
  | startReturn
  | stopReturn
  | dataTransfer
  | scheduleStatusReportReturn
  | statusReportInvoc
  | getParamReturn
  | transferDataInvoc
  | syncNotify
  | peerAbort
deriving DecidableEq, Repr

/-- Look up the handler list registered under a key in the handler table
(`self._handlers`, a mapping from variant name to an ordered handler list). -/
def lookupHandlers {α : Type} (table : List (String × List α)) (key : String) :
    Option (List α) :=
  match table with
  | [] => none
  | (k, hs) :: rest => if k == key then some hs else lookupHandlers rest key

/-- `self._handlers[key].append(h)`: append a handler to the ordered list
under `key`, creating the entry when the key is new. -/
def register {α : Type} (table : List (String × List α)) (key : String)
    (h : α) : List (String × List α) :=
  match table with
  | [] => [(key, [h])]
  | (k, hs) :: rest =>
      if k == key then (k, hs ++ [h]) :: rest else (k, hs) :: register rest key h

/-- The registrations performed by `RCF.__init__`, in source order. -/
def initRegistrations : List (String × HandlerId) :=
  [("RcfBindReturn", HandlerId.bindReturn),
   ("RcfUnbindReturn", HandlerId.unbindReturn),
   ("RcfStartReturn", HandlerId.startReturn),
   ("RcfStopReturn", HandlerId.stopReturn),
   ("RcfTransferBuffer", HandlerId.dataTransfer),
   ("RcfScheduleStatusReportReturn", HandlerId.scheduleStatusReportReturn),
   ("RcfStatusReportInvocation", HandlerId.statusReportInvoc),
   ("RcfGetParameterReturn", HandlerId.getParamReturn),
   ("AnnotatedFrame", HandlerId.transferDataInvoc),
   ("SyncNotification", HandlerId.syncNotify),
   ("RcfPeerAbortInvocation", HandlerId.peerAbort)]

/-- The handler table as it stands after `RCF.__init__`. -/
def defaultHandlers : List (String × List HandlerId) :=
  initRegistrations.foldl (fun t kh => register t kh.1 kh.2) []

/-- Result of `_handle_pdu`: the handler invocations performed (each handler
paired with the PDU it was called on), in order, and any log output. -/
structure DispatchResult (α π : Type) where
  invoked : List (α × π)
  logs : List LogEntry
deriving DecidableEq, Repr

/-- `RCF._handle_pdu(pdu)`: normalise the first character of
`pdu.getName()` to upper case, call every handler registered under that key
in order, or log an error when no entry exists. -/
def handle_pdu {α π : Type} (table : List (String × List α)) (pduName : String)
    (pdu : π) : DispatchResult α π :=
  let key := upFirst pduName
  match lookupHandlers table key with
  | some hs => { invoked := hs.map fun h => (h, pdu), logs := [] }
  | none =>
      { invoked := []
        logs := [⟨LogLevel.error,
          "PDU of type " ++ key ++ " has no associated handlers. " ++
          "Unable to process further and skipping ..."⟩] }

/-- `RCF._data_transfer_handler(pdu)`:
`self._handle_pdu` applied to entry 0 of the rcfTransferBuffer sequence — redispatch the first entry
of the transfer buffer under its own variant name (`getName`); `none` models
the IndexError on an empty sequence. -/
def data_transfer_handler {α π : Type} (table : List (String × List α))
    (getName : π → String) (entries : List π) : Option (DispatchResult α π) :=
  match entries with
  | [] => none
  | e :: _ => some (handle_pdu table (getName e) e)

/-- `RCF._transfer_data_invoc_handler(pdu)`: `frameData` is `some octets`
when the data field is present in the frame and carries a value, else `none`;
`dataSegment` is the external frame decoder composed with `._data[0]`
(`frames.TMTransFrame(tm_data)._data[0]`, the decoded transfer frame
primary data segment). -/
def transfer_data_invoc_handler (dataSegment : List Nat → List Nat)
    (frameData : Option (List Nat)) : Effects :=
  match frameData with
  | none =>
      { logs := [⟨LogLevel.info,
          "RcfTransferBuffer received but data cannot be located. " ++
          "Skipping further processing of this PDU ..."⟩]
        datagrams := [] }
  | some tm_data =>
      let seg := dataSegment tm_data
      { logs := [⟨LogLevel.info,
          "Sending " ++ toString seg.length ++ " bytes to telemetry port"⟩]
        datagrams := [⟨seg, "localhost", 3076⟩] }

/-- A decoded `SyncNotification` entry, as the branches of
`_sync_notify_handler` see it: the recognised variant names are
`lossFrameSync`, `productionStatusChange`, `excessiveDataBacklog` and
`endOfData`; `other` is any other variant name reported by `getName()`
(which, on a CHOICE value, is never one of the recognised four). -/
inductive SyncNotification
  | lossFrameSync (time carrierLockStatus subcarrierLockStatus
      symbolSynclockStatus : String)
  | productionStatusChange (status : Nat)
  | excessiveDataBacklog
  | endOfData
  | other (rawName : String)
deriving DecidableEq, Repr

/-- The label list assigned to `prod_status_labels` in the handler. -/
def prod_status_labels : List String :=
  ["running", "interrupted", "halted"]

/-- `RCF._sync_notify_handler(pdu)`: branch on the notification name and log
one informational report; `none` models the unguarded IndexError when a
production-status payload is outside the label list. -/
def sync_notify_handler (n : SyncNotification) : Option Effects :=
  match n with
  | SyncNotification.lossFrameSync t c sc sy =>
      let report :=
        "Frame Sync has been lost. See report below ... \n\n" ++
        "Lock Status Report\n" ++
        "Lock Time: " ++ t ++ "\n" ++
        "Carrier Lock Status: " ++ c ++ "\n" ++
        "Sub-Carrier Lock Status: " ++ sc ++ "\n" ++
        "Symbol Sync Lock Status: " ++ sy
      some ⟨[⟨LogLevel.info, report⟩], []⟩
  | SyncNotification.productionStatusChange status =>
      (prod_status_labels.get? status).map fun label =>
        ⟨[⟨LogLevel.info, "Production Status Report: " ++ label⟩], []⟩
  | SyncNotification.excessiveDataBacklog =>
      some ⟨[⟨LogLevel.info, "Excessive Data Backlog Detected"⟩], []⟩
  | SyncNotification.endOfData =>
      some ⟨[⟨LogLevel.info, "End of Data Received"⟩], []⟩
  | SyncNotification.other rawName =>
      let report := "Received unknown sync notification: " ++ rawName
      some ⟨[⟨LogLevel.info, report⟩], []⟩

/-- A session with both defaults present and no authentication. -/
def sessionA : Session :=
  { authLevel := "none", credential := 0, invokeId := 1,
    scid := some 7, tfvn := some 1 }

/-- A session whose transfer-frame-version default is absent. -/
def sessionNoTfvn : Session :=
  { authLevel := "none", credential := 0, invokeId := 1,
    scid := some 7, tfvn := none }

/-- A session whose spacecraft-id default is 5. -/
def sessionScid5 : Session :=
  { authLevel := "none", credential := 0, invokeId := 1,
    scid := some 5, tfvn := some 1 }

/-- A session with full authentication. -/
def sessionAll : Session :=
  { authLevel := "all", credential := 42, invokeId := 3,
    scid := some 7, tfvn := some 1 }

/-- The PDU produced by `start sessionA 10000 365 none none true none`. -/
def claim_C3_witness_pdu : StartInvocation :=
  { invokerCredentials := Credentials.unused
    invokeId := 1
    startTime := [39, 16, 0, 0, 0, 0, 0, 0]
    stopTime := [1, 109, 0, 0, 0, 0, 0, 0]
    requestedGvcId :=
      { spacecraftId := 7, versionNumber := 1,
        vcId := VcIdChoice.masterChannel } }

/-- The PDU produced by `start sessionAll 0 1 none none true none`. -/
def claim_C8_witness_pdu : StartInvocation :=
  { invokerCredentials := Credentials.used 42
    invokeId := 3
    startTime := [0, 0, 0, 0, 0, 0, 0, 0]
    stopTime := [0, 1, 0, 0, 0, 0, 0, 0]
    requestedGvcId :=
      { spacecraftId := 7, versionNumber := 1,
        vcId := VcIdChoice.masterChannel } }

/-- The PDU produced by `start sessionA 5 9 none none true (some 3)`. -/
def claim_C10_witness_pdu : StartInvocation :=
  { invokerCredentials := Credentials.unused
    invokeId := 1
    startTime := [0, 5, 0, 0, 0, 0, 0, 0]
    stopTime := [0, 9, 0, 0, 0, 0, 0, 0]
    requestedGvcId :=
      { spacecraftId := 7, versionNumber := 1,
        vcId := VcIdChoice.masterChannel } }

/-- Shape of every successful `start`: credentials come from the credential
selector, the invoke id from the session, the time fields from the CCSDS
packing of the day counts, and the channel choice from `master_channel`. -/
theorem start_ok_spec {s : Session} {d1 d2 : Nat} {a b : Option Nat}
    {mc : Bool} {vc : Option Nat} {pdu : StartInvocation}
    (hok : start s d1 d2 a b mc vc = Except.ok pdu) :
    pdu.invokerCredentials = credentialSelect s
    ∧ pdu.invokeId = s.invokeId
    ∧ ccsdsTimeFormat d1 = some pdu.startTime
    ∧ ccsdsTimeFormat d2 = some pdu.stopTime
    ∧ pdu.requestedGvcId.vcId =
        (if mc then VcIdChoice.masterChannel
         else VcIdChoice.virtualChannel (vc.getD 0)) := by
  unfold start at hok
  split at hok
  · cases hok
  · split at hok
    · cases hok
    · split at hok
      · cases hok
      · split at hok
        case _ st et hst het =>
          injection hok with h
          subst h
          simp [hst, het]
        case _ =>
          cases hok

/-- Claim C1 (code bug evaluation): with `master_channel = False` and
`virtual_channel = 0` — a supplied virtual channel index — `start` raises the
no-channel-selection error, because `not virtual_channel` is true for the
integer 0; supplying index 1 instead succeeds.  The claim (and the docstring
convention that presence means not-None) says index 0 must not raise. -/
theorem claim_C1_truthiness_bug :
    start sessionA 0 1 none none false (some 0) =
      Except.error StartError.noChannelSelection
    ∧ start sessionA 0 1 none none false (some 1) =
      Except.ok
        { invokerCredentials := Credentials.unused
          invokeId := 1
          startTime := [0, 0, 0, 0, 0, 0, 0, 0]
          stopTime := [0, 1, 0, 0, 0, 0, 0, 0]
          requestedGvcId :=
            { spacecraftId := 7, versionNumber := 1,
              vcId := VcIdChoice.virtualChannel 1 } } := by
  exact ⟨rfl, rfl⟩

/-- Claim C2 (code bug evaluation): a supplied value 0 is treated as absent by
the truthiness tests.  With `trans_frame_ver_num = 0` (a valid TFVN per the
docstring of `start`) and no session default, `start` raises the
missing-frame-version error instead of using 0; with `spacecraft_id = 0`
supplied and session default 5, the constructed GvcId carries 5, not the
supplied 0.  The claim says a present argument — including 0 — is used. -/
theorem claim_C2_resolution_bug :
    start sessionNoTfvn 0 1 none (some 0) true none =
      Except.error StartError.missingFrameVersion
    ∧ start sessionScid5 0 1 (some 0) (some 1) true none =
      Except.ok
        { invokerCredentials := Credentials.unused
          invokeId := 1
          startTime := [0, 0, 0, 0, 0, 0, 0, 0]
          stopTime := [0, 1, 0, 0, 0, 0, 0, 0]
          requestedGvcId :=
            { spacecraftId := 5, versionNumber := 1,
              vcId := VcIdChoice.masterChannel } } := by
  exact ⟨rfl, rfl⟩

/-- Claim C3 (counterexample to the unbounded form): a timestamp 65536 whole
days after the epoch does not fit the 16-bit day field; the pack step fails
(`struct.error`) and `start` produces no PDU at all, so the claim quantified
over every `N ≥ 0` is false. -/
theorem claim_C3_counterexample :
    ccsdsTimeFormat 65536 = none
    ∧ start sessionA 65536 0 none none true none =
      Except.error StartError.structError := by
  exact ⟨rfl, rfl⟩

/-- Claim C3 (amended to day counts below 2^16): for every timestamp `N`
whole days after the CCSDS epoch with `N < 2^16`, the encoding is exactly the
8 bytes `[N / 256, N % 256, 0, 0, 0, 0, 0, 0]` — a big-endian 16-bit day
count equal to `N`, a 32-bit millisecond-of-day 0 and a 16-bit
microsecond-of-millisecond 0 — and every successful `start` stores these
bytes in the startTime and stopTime fields of the Start PDU. -/
theorem claim_C3_time_encoding (N : Nat) (hN : N < 2 ^ 16) :
    ccsdsTimeFormat N = some [N / 2 ^ 8, N % 2 ^ 8, 0, 0, 0, 0, 0, 0]
    ∧ ([N / 2 ^ 8, N % 2 ^ 8, 0, 0, 0, 0, 0, 0] : List Nat).length = 8
    ∧ (N / 2 ^ 8) * 2 ^ 8 + N % 2 ^ 8 = N
    ∧ N / 2 ^ 8 < 2 ^ 8
    ∧ (∀ (s : Session) (M : Nat) (a b : Option Nat) (mc : Bool)
         (vc : Option Nat) (pdu : StartInvocation),
        M < 2 ^ 16 →
        start s N M a b mc vc = Except.ok pdu →
        pdu.startTime = [N / 2 ^ 8, N % 2 ^ 8, 0, 0, 0, 0, 0, 0]
        ∧ pdu.stopTime = [M / 2 ^ 8, M % 2 ^ 8, 0, 0, 0, 0, 0, 0]) := by
  have hpack : ∀ n : Nat, n < 2 ^ 16 →
      ccsdsTimeFormat n = some [n / 2 ^ 8, n % 2 ^ 8, 0, 0, 0, 0, 0, 0] := by
    intro n hn
    have hn65536 : n < 65536 := by omega
    simp [ccsdsTimeFormat, structPackHIH, packU16, packU32, hn65536]
  refine ⟨hpack N hN, rfl, ?_, ?_, ?_⟩
  · omega
  · omega
  · intro s M a b mc vc pdu hM hok
    obtain ⟨-, -, hst, het, -⟩ := start_ok_spec hok
    rw [hpack N hN] at hst
    rw [hpack M hM] at het
    exact ⟨(Option.some_injective _ hst).symm, (Option.some_injective _ het).symm⟩

/-- Claim C3 (witness): the theorem applied at day count 10000 with end day
365 on a concrete session. -/
theorem claim_C3_witness :
    ccsdsTimeFormat 10000 = some [39, 16, 0, 0, 0, 0, 0, 0]
    ∧ ((claim_C3_witness_pdu).startTime = [39, 16, 0, 0, 0, 0, 0, 0]
       ∧ (claim_C3_witness_pdu).stopTime = [1, 109, 0, 0, 0, 0, 0, 0]) :=
  ⟨(claim_C3_time_encoding 10000 (by decide)).1,
   (claim_C3_time_encoding 10000 (by decide)).2.2.2.2 sessionA 365 none none
     true none claim_C3_witness_pdu (by decide) rfl⟩

/-- Claim C4 (counterexample): `schedule_status_report` with report type
periodically accepts an out-of-range cycle (601 or 1) and an absent cycle
without raising any validation error — the PDU is built and transmitted, so
the claimed synchronous-error behaviour is false. -/
theorem claim_C4_counterexample :
    schedule_status_report sessionA "periodically" (some 601) =
      Except.ok
        { invokerCredentials := Credentials.unused, invokeId := 1,
          reportType := ReportTypeField.periodically (some 601) }
    ∧ schedule_status_report sessionA "periodically" none =
      Except.ok
        { invokerCredentials := Credentials.unused, invokeId := 1,
          reportType := ReportTypeField.periodically none }
    ∧ schedule_status_report sessionA "periodically" (some 1) =
      Except.ok
        { invokerCredentials := Credentials.unused, invokeId := 1,
          reportType := ReportTypeField.periodically (some 1) } := by
  exact ⟨rfl, rfl, rfl⟩

/-- Claim C4 (amended): `schedule_status_report` performs no cycle
validation: with report type periodically, any cycle — absent or outside
2..600 — is embedded as given and the PDU is handed to transmission; an
error is raised only for a report-type string other than the three
recognised ones, and that error carries the offending string. -/
theorem claim_C4_no_cycle_validation :
    (∀ (s : Session) (cycle : Option Nat),
      schedule_status_report s "periodically" cycle =
        Except.ok
          { invokerCredentials := credentialSelect s, invokeId := s.invokeId,
            reportType := ReportTypeField.periodically cycle })
    ∧ (∀ (s : Session) (rt : String) (cycle : Option Nat) (e : ScheduleError),
        schedule_status_report s rt cycle = Except.error e →
        rt ≠ "immediately" ∧ rt ≠ "periodically" ∧ rt ≠ "stop"
        ∧ e = ScheduleError.unknownReportType rt) := by
  constructor
  · intro s cycle
    rfl
  · intro s rt cycle e h
    unfold schedule_status_report at h
    split at h
    · cases h
    · split at h
      · cases h
      · split at h
        · cases h
        · injection h with h2
          refine ⟨?_, ?_, ?_, h2.symm⟩ <;> simp_all

/-- Claim C4 (witness): the amended theorem applied at a concrete session,
an out-of-range cycle 700, and the unknown report type string bogus. -/
theorem claim_C4_witness :
    schedule_status_report sessionA "periodically" (some 700) =
      Except.ok
        { invokerCredentials := Credentials.unused, invokeId := 1,
          reportType := ReportTypeField.periodically (some 700) }
    ∧ ("bogus" ≠ "immediately" ∧ "bogus" ≠ "periodically" ∧ "bogus" ≠ "stop"
       ∧ ScheduleError.unknownReportType "bogus" =
           ScheduleError.unknownReportType "bogus") :=
  ⟨claim_C4_no_cycle_validation.1 sessionA (some 700),
   claim_C4_no_cycle_validation.2 sessionA "bogus" none
     (ScheduleError.unknownReportType "bogus") rfl⟩

/-- Appending a handler with `register` extends the ordered list under that
key (creating it when absent) and is found by `lookupHandlers`. -/
theorem lookupHandlers_register {α : Type} (table : List (String × List α))
    (key : String) (h : α) :
    lookupHandlers (register table key h) key =
      some ((lookupHandlers table key).getD [] ++ [h]) := by
  induction table with
  | nil => simp [register, lookupHandlers]
  | cons kv rest ih =>
      obtain ⟨k, hs⟩ := kv
      by_cases hk : k == key
      · simp [register, lookupHandlers, hk]
      · simp [register, lookupHandlers, hk, ih]

/-- Claim C5: `_handle_pdu` normalises only the first character of the
variant name to upper case (the rest is unchanged), invokes every handler
registered under that key in registration order with the decoded PDU, and
when no entry exists it logs an error, invokes nothing and returns normally
(the function is total, so no exception propagates and later PDUs are
processed the same way); registering appends to the ordered list, so two
handlers registered under one key are both invoked, in order. -/
theorem claim_C5_dispatch :
    (∀ (c : Char) (cs : List Char),
        upFirst (String.mk (c :: cs)) = String.mk (c.toUpper :: cs))
    ∧ (∀ (α π : Type) (table : List (String × List α)) (name : String)
         (pdu : π) (hs : List α),
        lookupHandlers table (upFirst name) = some hs →
        handle_pdu table name pdu =
          { invoked := hs.map fun h => (h, pdu), logs := [] })
    ∧ (∀ (α π : Type) (table : List (String × List α)) (name : String)
         (pdu : π),
        lookupHandlers table (upFirst name) = none →
        (handle_pdu table name pdu).invoked = []
        ∧ (handle_pdu table name pdu).logs =
            [⟨LogLevel.error,
              "PDU of type " ++ upFirst name ++ " has no associated handlers. " ++
              "Unable to process further and skipping ..."⟩])
    ∧ (∀ (α : Type) (table : List (String × List α)) (key : String) (h : α),
        lookupHandlers (register table key h) key =
          some ((lookupHandlers table key).getD [] ++ [h]))
    ∧ (∀ (π : Type) (pdu : π) (h1 h2 : Nat),
        handle_pdu (register (register ([] : List (String × List Nat)) "K" h1)
            "K" h2) "k" pdu =
          { invoked := [(h1, pdu), (h2, pdu)], logs := [] }) := by
  refine ⟨?_, ?_, ?_, ?_, ?_⟩
  · intro c cs
    rfl
  · intro α π table name pdu hs h
    simp [handle_pdu, h]
  · intro α π table name pdu h
    constructor <;> simp [handle_pdu, h]
  · intro α table key h
    exact lookupHandlers_register table key h
  · intro π pdu h1 h2
    rfl

/-- Claim C5 (witness): dispatching the rcfTransferBuffer variant through the
table built by `__init__` invokes exactly its one registered handler; a
variant with no entry invokes nothing. -/
theorem claim_C5_witness :
    handle_pdu defaultHandlers "rcfTransferBuffer" 0 =
      ({ invoked := [(HandlerId.dataTransfer, 0)], logs := [] } :
        DispatchResult HandlerId Nat)
    ∧ (handle_pdu defaultHandlers "bogusPdu" (0 : Nat)).invoked =
        ([] : List (HandlerId × Nat)) :=
  ⟨claim_C5_dispatch.2.1 HandlerId Nat defaultHandlers "rcfTransferBuffer" 0
     [HandlerId.dataTransfer] rfl,
   (claim_C5_dispatch.2.2.1 HandlerId Nat defaultHandlers "bogusPdu" 0 rfl).1⟩

/-- Claim C6: `_data_transfer_handler` redispatches exactly the first entry
of the transfer buffer through `_handle_pdu` under that entry's own variant
name; the entries after the first play no role; in the table built by
`__init__`, the entry names annotatedFrame and syncNotification reach the
AnnotatedFrame and SyncNotification handlers. -/
theorem claim_C6_transfer_buffer :
    (∀ (α π : Type) (table : List (String × List α)) (getName : π → String)
       (e : π) (rest : List π),
        data_transfer_handler table getName (e :: rest) =
          some (handle_pdu table (getName e) e))
    ∧ (∀ (α π : Type) (table : List (String × List α)) (getName : π → String)
         (e : π) (rest rest2 : List π),
        data_transfer_handler table getName (e :: rest) =
          data_transfer_handler table getName (e :: rest2))
    ∧ lookupHandlers defaultHandlers "AnnotatedFrame" =
        some [HandlerId.transferDataInvoc]
    ∧ lookupHandlers defaultHandlers "SyncNotification" =
        some [HandlerId.syncNotify]
    ∧ (∀ (π : Type) (e : π),
        handle_pdu defaultHandlers "annotatedFrame" e =
          { invoked := [(HandlerId.transferDataInvoc, e)], logs := [] }
        ∧ handle_pdu defaultHandlers "syncNotification" e =
          { invoked := [(HandlerId.syncNotify, e)], logs := [] }) := by
  refine ⟨?_, ?_, rfl, rfl, ?_⟩
  · intro α π table getName e rest
    rfl
  · intro α π table getName e rest rest2
    rfl
  · intro π e
    exact ⟨rfl, rfl⟩

/-- Claim C7 (confirmed parts): with a present, valid data field the frame
forwarder sends exactly one datagram, whose payload is the decoded transfer
frame primary data segment, to localhost port 3076; with the data field
absent it sends nothing, emits exactly one log message, and drops the
entry with no other effect. -/
theorem claim_C7_frame_forwarder :
    (∀ (dataSegment : List Nat → List Nat) (tm : List Nat),
        (transfer_data_invoc_handler dataSegment (some tm)).datagrams =
          [{ payload := dataSegment tm, host := "localhost", port := 3076 }])
    ∧ (∀ (dataSegment : List Nat → List Nat),
        transfer_data_invoc_handler dataSegment none =
          { logs := [⟨LogLevel.info,
              "RcfTransferBuffer received but data cannot be located. " ++
              "Skipping further processing of this PDU ..."⟩]
            datagrams := [] }) := by
  exact ⟨fun f tm => rfl, fun f => rfl⟩

/-- Claim C7 (counterexample to the warning wording): on an entry with no
data field the handler emits exactly one log message and zero datagrams, but
that message is at info level — no warning-level message is logged, contrary
to the claim. -/
theorem claim_C7_counterexample :
    (transfer_data_invoc_handler id none).datagrams = []
    ∧ (transfer_data_invoc_handler id none).logs.length = 1
    ∧ ((transfer_data_invoc_handler id none).logs.all
        fun entry => !(entry.level == LogLevel.warning)) = true := by
  exact ⟨rfl, rfl, rfl⟩

/-- Claim C8: every PDU constructed by `start` or by
`schedule_status_report` carries used credentials exactly when the session
authentication level is all, and unused otherwise; the choice is
`credentialSelect`, a function of the session alone, independent of the
operation arguments. -/
theorem claim_C8_credentials :
    (∀ (s : Session) (d1 d2 : Nat) (a b : Option Nat) (mc : Bool)
       (vc : Option Nat) (pdu : StartInvocation),
        start s d1 d2 a b mc vc = Except.ok pdu →
        pdu.invokerCredentials = credentialSelect s)
    ∧ (∀ (s : Session) (rt : String) (cycle : Option Nat)
         (pdu : ScheduleInvocation),
        schedule_status_report s rt cycle = Except.ok pdu →
        pdu.invokerCredentials = credentialSelect s)
    ∧ (∀ s : Session, credentialSelect s =
        if s.authLevel == "all" then Credentials.used s.credential
        else Credentials.unused) := by
  refine ⟨?_, ?_, fun s => rfl⟩
  · intro s d1 d2 a b mc vc pdu hok
    exact (start_ok_spec hok).1
  · intro s rt cycle pdu hok
    unfold schedule_status_report at hok
    split at hok
    · injection hok with h
      subst h
      rfl
    · split at hok
      · injection hok with h
        subst h
        rfl
      · split at hok
        · injection hok with h
          subst h
          rfl
        · cases hok

/-- Claim C8 (witness): on a fully authenticated session the start PDU
carries the used credential value. -/
theorem claim_C8_witness :
    claim_C8_witness_pdu.invokerCredentials = credentialSelect sessionAll :=
  claim_C8_credentials.1 sessionAll 0 1 none none true none
    claim_C8_witness_pdu rfl

/-- Claim C9: production-status-change payloads 0, 1 and 2 produce reports
naming running, interrupted and halted respectively; an unrecognised
notification kind produces a report embedding its raw name verbatim; and
every notification the handler completes on results only in a single
informational log entry, with no datagram and no returned value. -/
theorem claim_C9_sync_notifications :
    sync_notify_handler (SyncNotification.productionStatusChange 0) =
      some ⟨[⟨LogLevel.info, "Production Status Report: running"⟩], []⟩
    ∧ sync_notify_handler (SyncNotification.productionStatusChange 1) =
      some ⟨[⟨LogLevel.info, "Production Status Report: interrupted"⟩], []⟩
    ∧ sync_notify_handler (SyncNotification.productionStatusChange 2) =
      some ⟨[⟨LogLevel.info, "Production Status Report: halted"⟩], []⟩
    ∧ (∀ rawName : String,
        sync_notify_handler (SyncNotification.other rawName) =
          some ⟨[⟨LogLevel.info,
            "Received unknown sync notification: " ++ rawName⟩], []⟩)
    ∧ (∀ (n : SyncNotification) (eff : Effects),
        sync_notify_handler n = some eff →
        eff.datagrams = [] ∧ eff.logs.length = 1
        ∧ ∀ entry ∈ eff.logs, entry.level = LogLevel.info) := by
  refine ⟨rfl, rfl, rfl, fun rawName => rfl, ?_⟩
  intro n eff h
  cases n with
  | lossFrameSync t c sc sy =>
      simp only [sync_notify_handler, Option.some.injEq] at h
      subst h
      simp
  | productionStatusChange status =>
      simp only [sync_notify_handler, Option.map_eq_some'] at h
      obtain ⟨l, hl, heq⟩ := h
      subst heq
      simp
  | excessiveDataBacklog =>
      simp only [sync_notify_handler, Option.some.injEq] at h
      subst h
      simp
  | endOfData =>
      simp only [sync_notify_handler, Option.some.injEq] at h
      subst h
      simp
  | other rawName =>
      simp only [sync_notify_handler, Option.some.injEq] at h
      subst h
      simp

/-- Claim C9 (witness): the all-cases conjunct applied to the concrete
end-of-data notification. -/
theorem claim_C9_witness :
    (⟨[⟨LogLevel.info, "End of Data Received"⟩], []⟩ : Effects).datagrams = []
    ∧ (⟨[⟨LogLevel.info, "End of Data Received"⟩], []⟩ : Effects).logs.length = 1
    ∧ ∀ entry ∈ (⟨[⟨LogLevel.info, "End of Data Received"⟩], []⟩ :
        Effects).logs, entry.level = LogLevel.info :=
  claim_C9_sync_notifications.2.2.2.2 SyncNotification.endOfData
    ⟨[⟨LogLevel.info, "End of Data Received"⟩], []⟩ rfl

/-- Claim C10: with `master_channel = True`, a supplied virtual channel index
is silently ignored — the call behaves identically with and without it, the
no-channel-selection error is never raised, and any constructed GvcId carries
the master-channel tag. -/
theorem claim_C10_master_overrides :
    ∀ (s : Session) (d1 d2 : Nat) (a b : Option Nat) (v : Nat),
      start s d1 d2 a b true (some v) = start s d1 d2 a b true none
      ∧ start s d1 d2 a b true (some v) ≠
          Except.error StartError.noChannelSelection
      ∧ ∀ pdu : StartInvocation,
          start s d1 d2 a b true (some v) = Except.ok pdu →
          pdu.requestedGvcId.vcId = VcIdChoice.masterChannel := by
  intro s d1 d2 a b v
  refine ⟨rfl, ?_, ?_⟩
  · intro hcontra
    unfold start at hcontra
    simp only [Bool.not_true, Bool.false_and, Bool.false_eq_true,
      if_false] at hcontra
    split at hcontra
    · cases hcontra
    · split at hcontra
      · cases hcontra
      · split at hcontra
        · cases hcontra
        · cases hcontra
  · intro pdu hok
    have h := (start_ok_spec hok).2.2.2.2
    simpa using h

/-- Claim C10 (witness): the theorem applied on a concrete session with
virtual channel 3 supplied alongside the master-channel flag. -/
theorem claim_C10_witness :
    claim_C10_witness_pdu.requestedGvcId.vcId = VcIdChoice.masterChannel
    ∧ start sessionA 5 9 none none true (some 3) =
        start sessionA 5 9 none none true none :=
  ⟨(claim_C10_master_overrides sessionA 5 9 none none 3).2.2
     claim_C10_witness_pdu rfl,
   (claim_C10_master_overrides sessionA 5 9 none none 3).1⟩

end RcfSpec
